import Mathlib

/-!
Verification of the mood_analyst repository: a shallow embedding of the
mood classifier (mood/analyzer.go), the Spotify catalog client
(spotify/client.go) and the recommendation orchestrator (main.go),
together with proofs of the specified properties.
-/

namespace MoodAnalyst

/-! ### String utilities mirroring Go's strings package (ASCII fragment) -/

/-- Character-wise ASCII lowercasing of a string, mirroring the effect of
Go `strings.ToLower` on ASCII input. -/
def lowerStr (s : String) : String := ⟨s.data.map Char.toLower⟩

/-- Does the second character list contain the first as a contiguous run?
Mirrors the search performed by Go `strings.Contains`. -/
def containsSub (needle : List Char) : List Char → Bool
  | [] => needle.isEmpty
  | c :: rest => needle.isPrefixOf (c :: rest) || containsSub needle rest

/-- Go `strings.Contains(text, term)`. -/
def strContains (text term : String) : Bool := containsSub term.data text.data

/-- `containsAny` from mood/analyzer.go: whether `text` contains any of the
given substrings. -/
def containsAny (text : String) (terms : List String) : Bool :=
  terms.any fun term => strContains text term

/-- Concatenation of a list of strings, used to phrase the rendered
response as the concatenation of its per-track lines. -/
def concatStrings : List String → String
  | [] => ""
  | s :: rest => s ++ concatStrings rest

/-! ### Data model: MoodProfile (mood/analyzer.go) -/

/-- The mood profile produced by classification.  Audio-feature targets are
modelled as rationals (the Go source stores exact decimal constants in
float32 fields and never computes with them). -/
structure MoodProfile where
  mood : String
  energy : ℚ
  danceability : ℚ
  valence : ℚ
  acousticness : ℚ
  suggestedGenres : List String
  searchQueryTerms : String
deriving DecidableEq, Repr

/-- The profile initialised at the top of `AnalyzeMood`; `searchQueryTerms`
is the Go zero value `""`. -/
def defaultProfile : MoodProfile :=
  { mood := "neutral", energy := 0.5, danceability := 0.5, valence := 0.5,
    acousticness := 0.5, suggestedGenres := [], searchQueryTerms := "" }

def happyKeywords : List String :=
  ["happy", "joyful", "excited", "energetic", "upbeat", "great", "fantastic"]

def happyProfile : MoodProfile :=
  { mood := "happy", energy := 0.8, danceability := 0.7, valence := 0.8,
    acousticness := 0.3, suggestedGenres := ["pop", "dance", "electronic", "funk"],
    searchQueryTerms := "happy upbeat energetic" }

def sadKeywords : List String :=
  ["sad", "down", "depressed", "lonely", "blue", "heartbroken", "melancholy"]

def sadProfile : MoodProfile :=
  { mood := "sad", energy := 0.3, danceability := 0.2, valence := 0.2,
    acousticness := 0.7, suggestedGenres := ["indie", "folk", "soul", "acoustic"],
    searchQueryTerms := "sad emotional soulful" }

def relaxedKeywords : List String :=
  ["calm", "relaxed", "chill", "peaceful", "serene", "tranquil", "zen"]

def relaxedProfile : MoodProfile :=
  { mood := "relaxed", energy := 0.2, danceability := 0.3, valence := 0.5,
    acousticness := 0.8, suggestedGenres := ["ambient", "lo-fi", "jazz", "acoustic"],
    searchQueryTerms := "relaxing chill ambient" }

def energeticKeywords : List String :=
  ["pumped", "energetic", "motivated", "fired up", "adrenaline"]

def energeticProfile : MoodProfile :=
  { mood := "energetic", energy := 0.9, danceability := 0.8, valence := 0.7,
    acousticness := 0.1, suggestedGenres := ["hip-hop", "electronic", "rock", "metal"],
    searchQueryTerms := "energetic powerful intense" }

def romanticKeywords : List String :=
  ["romantic", "in love", "loved", "affectionate", "passionate"]

def romanticProfile : MoodProfile :=
  { mood := "romantic", energy := 0.4, danceability := 0.5, valence := 0.7,
    acousticness := 0.6, suggestedGenres := ["soul", "r&b", "indie", "acoustic pop"],
    searchQueryTerms := "romantic love passionate" }

def focusedKeywords : List String :=
  ["focused", "studying", "concentrating", "working", "productive"]

def focusedProfile : MoodProfile :=
  { mood := "focused", energy := 0.5, danceability := 0.3, valence := 0.5,
    acousticness := 0.5,
    suggestedGenres := ["lo-fi", "classical", "ambient", "instrumental"],
    searchQueryTerms := "focus study concentration" }

/-- `AnalyzeMood` from mood/analyzer.go: lowercase the description, then run
the six keyword checks in source order, each match overwriting the whole
profile. -/
def AnalyzeMood (moodDescription : String) : MoodProfile :=
  let description := lowerStr moodDescription
  let profile := defaultProfile
  let profile := if containsAny description happyKeywords then happyProfile else profile
  let profile := if containsAny description sadKeywords then sadProfile else profile
  let profile := if containsAny description relaxedKeywords then relaxedProfile else profile
  let profile := if containsAny description energeticKeywords then energeticProfile else profile
  let profile := if containsAny description romanticKeywords then romanticProfile else profile
  let profile := if containsAny description focusedKeywords then focusedProfile else profile
  profile

/-- The six category rules in the spec's fixed table order. -/
def moodRules : List (List String × MoodProfile) :=
  [(happyKeywords, happyProfile), (sadKeywords, sadProfile),
   (relaxedKeywords, relaxedProfile), (energeticKeywords, energeticProfile),
   (romanticKeywords, romanticProfile), (focusedKeywords, focusedProfile)]

/-- Spec-side formulation: apply the rules in table order, each matching rule
unconditionally overwriting the whole profile. -/
def applyRulesInOrder (description : String) : MoodProfile :=
  moodRules.foldl (fun p r => if containsAny description r.1 then r.2 else p)
    defaultProfile

/-- Spec-side formulation: the profile of the last rule whose keyword set
matches the description, if any. -/
def lastMatchingProfile (description : String) : Option MoodProfile :=
  ((moodRules.filter fun r => containsAny description r.1).getLast?).map Prod.snd

/-! ### Data model: catalog entities (spotify/client.go) -/

structure Artist where
  name : String
deriving DecidableEq, Repr

structure Track where
  id : String
  name : String
  artists : List Artist
  externalURL : String
  previewURL : String
  uri : String
deriving DecidableEq, Repr

structure User where
  id : String
  displayName : String
deriving DecidableEq, Repr

structure Playlist where
  id : String
  name : String
  externalURL : String
deriving DecidableEq, Repr

/-! ### Catalog client (spotify/client.go)

Each operation on a remote endpoint is modelled as a function of the
client state and an oracle describing the outcome of the single HTTP
exchange the operation would perform: `none` stands for a transport
failure, `some r` for a response with status `r.status` whose decoded
body is `r.body` (`none` there standing for a body that fails to
decode).  Every operation also returns the number of network calls it
performed, so that "performs no network call" is expressible. -/

/-- Error taxonomy of the client operations. -/
inductive SpErr where
  | notAuthenticated
  | transport
  | api (status : Nat)
  | decodeFailure
deriving DecidableEq, Repr

/-- An HTTP response as seen by the client: a status code and the decoded
body (`none` when the body fails to decode). -/
structure HttpResp (β : Type) where
  status : Nat
  body : Option β
deriving DecidableEq, Repr

/-- Client state from spotify/client.go. -/
structure Client where
  clientID : String
  clientSecret : String
  accessToken : String
deriving DecidableEq, Repr

/-- `SearchTracks` from spotify/client.go: guard on the stored token, then
one GET whose 200-response envelope yields the track items. -/
def Client.SearchTracks (c : Client) (net : Option (HttpResp (List Track)))
    (query : String) (limit : Nat) : Except SpErr (List Track) × Nat :=
  if c.accessToken = "" then (.error .notAuthenticated, 0)
  else
    match net with
    | none => (.error .transport, 1)
    | some r =>
      if r.status ≠ 200 then (.error (.api r.status), 1)
      else
        match r.body with
        | none => (.error .decodeFailure, 1)
        | some items => (.ok items, 1)

/-- `GetRecommendations` from spotify/client.go: guard on the stored token,
then one GET accepted only with status 200. -/
def Client.GetRecommendations (c : Client) (net : Option (HttpResp (List Track)))
    (seedTracks seedGenres : List String) (moodParams : List (String × ℚ))
    (limit : Nat) : Except SpErr (List Track) × Nat :=
  if c.accessToken = "" then (.error .notAuthenticated, 0)
  else
    match net with
    | none => (.error .transport, 1)
    | some r =>
      if r.status ≠ 200 then (.error (.api r.status), 1)
      else
        match r.body with
        | none => (.error .decodeFailure, 1)
        | some tracks => (.ok tracks, 1)

/-- `GetCurrentUser` from spotify/client.go: guard on the stored token, then
one GET accepted only with status 200. -/
def Client.GetCurrentUser (c : Client) (net : Option (HttpResp User)) :
    Except SpErr User × Nat :=
  if c.accessToken = "" then (.error .notAuthenticated, 0)
  else
    match net with
    | none => (.error .transport, 1)
    | some r =>
      if r.status ≠ 200 then (.error (.api r.status), 1)
      else
        match r.body with
        | none => (.error .decodeFailure, 1)
        | some user => (.ok user, 1)

/-- `CreatePlaylist` from spotify/client.go: guard on the stored token, then
one POST accepted exactly when the status is 201 (Created) or 200. -/
def Client.CreatePlaylist (c : Client) (net : Option (HttpResp Playlist))
    (userID name description : String) : Except SpErr Playlist × Nat :=
  if c.accessToken = "" then (.error .notAuthenticated, 0)
  else
    match net with
    | none => (.error .transport, 1)
    | some r =>
      if r.status ≠ 201 ∧ r.status ≠ 200 then (.error (.api r.status), 1)
      else
        match r.body with
        | none => (.error .decodeFailure, 1)
        | some playlist => (.ok playlist, 1)

/-- `AddTracksToPlaylist` from spotify/client.go: guard on the stored token,
then one POST accepted exactly when the status is 201 or 200 (the body is
not decoded).  The oracle is just the response status, `none` standing for
a transport failure. -/
def Client.AddTracksToPlaylist (c : Client) (net : Option Nat)
    (playlistID : String) (trackURIs : List String) : Except SpErr Unit × Nat :=
  if c.accessToken = "" then (.error .notAuthenticated, 0)
  else
    match net with
    | none => (.error .transport, 1)
    | some status =>
      if status ≠ 201 ∧ status ≠ 200 then (.error (.api status), 1)
      else (.ok (), 1)

/-! ### Orchestrator (main.go, recommendMusic)

The orchestrator sees the client as a collaborator returning either a
value or an error per call; it is modelled by a record of responses.  The
orchestrator's run is recorded as a list of call events so that claims
about which calls were or were not made are expressible. -/

/-- One outgoing client call made by the orchestrator, with its
arguments. -/
inductive CallEvent where
  | search (query : String) (limit : Nat)
  | recommendations (seedTracks seedGenres : List String) (limit : Nat)
  | currentUser
  | createPlaylist (userID name description : String)
  | addTracks (playlistID : String) (trackURIs : List String)
deriving DecidableEq, Repr

/-- The client as seen from `recommendMusic`: a response for every call the
orchestrator can make. -/
structure SpotifyEnv where
  searchTracks : String → Nat → Except String (List Track)
  getRecommendations : List String → List String → List (String × ℚ) → Nat →
    Except String (List Track)
  getCurrentUser : Except String User
  createPlaylist : String → String → String → Except String Playlist
  addTracksToPlaylist : String → List String → Except String Unit

/-- `FormatTrackRecommendation` from mood/analyzer.go. -/
def FormatTrackRecommendation (trackName artistName spotifyURL : String) : String :=
  "🎵 " ++ trackName ++ " by " ++ artistName ++ "\n   🔗 " ++ spotifyURL

/-- The response-building loop of `recommendMusic` (main.go): renders one
numbered line per track, using the first artist's name (or "Unknown" when
the track has no artists), and collects the non-empty track URIs. -/
def renderLoop : Nat → List Track → String × List String
  | _, [] => ("", [])
  | i, track :: rest =>
    let artistName :=
      match track.artists with
      | [] => "Unknown"
      | a :: _ => a.name
    let recommendation := FormatTrackRecommendation track.name artistName track.externalURL
    let r := renderLoop (i + 1) rest
    (toString (i + 1) ++ ". " ++ recommendation ++ "\n" ++ r.1,
     (if track.uri ≠ "" then [track.uri] else []) ++ r.2)

/-- Spec-side formulation of the rendering: the list of numbered lines, one
per track, each line naming the track's first artist or "Unknown" when the
artist list is empty. -/
def renderedLines : Nat → List Track → List String
  | _, [] => []
  | i, track :: rest =>
    (toString (i + 1) ++ ". " ++
        FormatTrackRecommendation track.name
          (match track.artists with
           | [] => "Unknown"
           | a :: _ => a.name) track.externalURL ++ "\n")
      :: renderedLines (i + 1) rest

/-- The search query of `recommendMusic`: the profile's search terms, with
the raw description as fallback when they are empty. -/
def effectiveQuery (profile : MoodProfile) (moodDescription : String) : String :=
  if profile.searchQueryTerms = "" then moodDescription else profile.searchQueryTerms

/-- The mood-parameter map passed to the recommendations call. -/
def moodParamsOf (profile : MoodProfile) : List (String × ℚ) :=
  [("target_energy", profile.energy), ("target_danceability", profile.danceability),
   ("target_valence", profile.valence), ("target_acousticness", profile.acousticness)]

/-- The non-empty track IDs collected from the search results (main.go,
seed collection loop). -/
def seedTrackIDsOf (tracks : List Track) : List String :=
  (tracks.filter fun t => t.id ≠ "").map fun t => t.id

/-- The genre padding of main.go: when fewer than 5 seed tracks were
collected, fill up with the profile's suggested genres. -/
def seedGenresOf (seedTrackIDs suggestedGenres : List String) : List String :=
  if seedTrackIDs.length < 5 then
    if suggestedGenres.length > 0 then
      if suggestedGenres.length > 5 - seedTrackIDs.length then
        suggestedGenres.take (5 - seedTrackIDs.length)
      else suggestedGenres
    else []
  else []

/-- The recommendations step of main.go with its fallback: on success the
recommended tracks are appended; on failure a second search with the
broadened query is attempted and its results appended when non-empty. -/
def fetchMore (env : SpotifyEnv) (query : String) (profile : MoodProfile)
    (seedTrackIDs seedGenres : List String) (tracks : List Track) :
    List Track × List CallEvent :=
  match env.getRecommendations seedTrackIDs seedGenres (moodParamsOf profile) 15 with
  | .ok recs => (tracks ++ recs, [.recommendations seedTrackIDs seedGenres 15])
  | .error _ =>
    let fallbackQuery := query ++ " " ++ profile.mood
    match env.searchTracks fallbackQuery 15 with
    | .ok moreTracks =>
      (if moreTracks.length > 0 then tracks ++ moreTracks else tracks,
       [.recommendations seedTrackIDs seedGenres 15, .search fallbackQuery 15])
    | .error _ =>
      (tracks, [.recommendations seedTrackIDs seedGenres 15, .search fallbackQuery 15])

/-- Name of the playlist created for a mood (main.go). -/
def plName (mood : String) : String := "Mood Analyst: " ++ mood.capitalize ++ " Vibes"

/-- Description of the playlist created for a mood (main.go). -/
def plDescription (mood : String) : String :=
  "A playlist curated for your " ++ mood ++ " mood."

/-- The optional playlist sub-flow of main.go: fetch the current user,
create the playlist, add the collected URIs.  Returns the created
playlist's external URL when all three steps succeed, `none` otherwise,
together with the calls made. -/
def playlistFlow (env : SpotifyEnv) (mood : String) (trackURIs : List String) :
    Option String × List CallEvent :=
  match env.getCurrentUser with
  | .error _ => (none, [.currentUser])
  | .ok user =>
    match env.createPlaylist user.id (plName mood) (plDescription mood) with
    | .error _ => (none, [.currentUser, .createPlaylist user.id (plName mood) (plDescription mood)])
    | .ok playlist =>
      match env.addTracksToPlaylist playlist.id trackURIs with
      | .error _ =>
        (none, [.currentUser, .createPlaylist user.id (plName mood) (plDescription mood),
                .addTracks playlist.id trackURIs])
      | .ok _ =>
        (some playlist.externalURL,
         [.currentUser, .createPlaylist user.id (plName mood) (plDescription mood),
          .addTracks playlist.id trackURIs])

/-- The header plus the rendered track list — the response text built
before the optional playlist sub-flow. -/
def baseResponse (mood : String) (tracks : List Track) : String :=
  "Based on your mood (" ++ mood ++ "), here are some song recommendations:\n\n" ++
    (renderLoop 0 tracks).1

/-- The result of a `recommendMusic` run: the returned text, the returned
error value (the Go function returns a nil error on every path), and the
client calls made. -/
structure FlowResult where
  response : String
  err : Option String
  events : List CallEvent

/-- `recommendMusic` from main.go. -/
def recommendMusic (env : SpotifyEnv) (moodDescription : String) : FlowResult :=
  let moodProfile := AnalyzeMood moodDescription
  let query := effectiveQuery moodProfile moodDescription
  match env.searchTracks query 5 with
  | .error _ =>
    { response := "I detected your mood as '" ++ moodProfile.mood ++
        "', but I couldn't fetch recommendations right now. Try again later!",
      err := none, events := [.search query 5] }
  | .ok tracks =>
    if tracks.length = 0 then
      { response := "I understand you're feeling " ++ moodProfile.mood ++
          ", but I couldn't find any matching songs right now.",
        err := none, events := [.search query 5] }
    else
      let seedTrackIDs := seedTrackIDsOf tracks
      let seedGenres := seedGenresOf seedTrackIDs moodProfile.suggestedGenres
      let fetched := fetchMore env query moodProfile seedTrackIDs seedGenres tracks
      let rendered := renderLoop 0 fetched.1
      let outcome := playlistFlow env moodProfile.mood rendered.2
      let response :=
        match outcome.1 with
        | some url => baseResponse moodProfile.mood fetched.1 ++
            "\n✨ I've also created a playlist for you: " ++ url ++ "\n"
        | none => baseResponse moodProfile.mood fetched.1
      { response := response, err := none,
        events := .search query 5 :: fetched.2 ++ outcome.2 }

/-- The arguments of the recommendation calls recorded in a run's event
list: seed track IDs, seed genres, and the requested limit. -/
def recEvents (events : List CallEvent) : List (List String × List String × Nat) :=
  events.filterMap fun e =>
    match e with
    | .recommendations st sg l => some (st, sg, l)
    | _ => none

/-- The track list after the recommendations step (composition of the
source's steps for a run whose initial search returned `tracks`). -/
def augTracks (env : SpotifyEnv) (desc : String) (tracks : List Track) : List Track :=
  (fetchMore env (effectiveQuery (AnalyzeMood desc) desc) (AnalyzeMood desc)
    (seedTrackIDsOf tracks)
    (seedGenresOf (seedTrackIDsOf tracks) (AnalyzeMood desc).suggestedGenres) tracks).1

/-- The playlist-candidate URIs collected while rendering such a run. -/
def urisOf (env : SpotifyEnv) (desc : String) (tracks : List Track) : List String :=
  (renderLoop 0 (augTracks env desc tracks)).2

/-! ### Concrete fixtures used by the witnesses -/

def clientNoTok : Client :=
  { clientID := "id", clientSecret := "secret", accessToken := "" }

def clientTok : Client :=
  { clientID := "id", clientSecret := "secret", accessToken := "tok" }

def plZero : Playlist := { id := "plid", name := "plname", externalURL := "plurl" }

def track1 : Track :=
  { id := "id1", name := "Song One", artists := [{ name := "Artist A" }],
    externalURL := "http://open.example/track1", previewURL := "",
    uri := "spotify:track:id1" }

def trackNoArtist : Track :=
  { id := "id2", name := "Orphan Song", artists := [],
    externalURL := "http://open.example/track2", previewURL := "", uri := "" }

/-- A client whose search finds one track and whose user lookup fails. -/
def envUserFail : SpotifyEnv :=
  { searchTracks := fun _ _ => .ok [track1],
    getRecommendations := fun _ _ _ _ => .ok [],
    getCurrentUser := .error "403",
    createPlaylist := fun _ _ _ => .error "403",
    addTracksToPlaylist := fun _ _ => .error "403" }

/-- A client whose search succeeds with zero items. -/
def envNoResults : SpotifyEnv :=
  { searchTracks := fun _ _ => .ok [],
    getRecommendations := fun _ _ _ _ => .error "down",
    getCurrentUser := .error "down",
    createPlaylist := fun _ _ _ => .error "down",
    addTracksToPlaylist := fun _ _ => .error "down" }

/-! ### Char/String lemmas -/

theorem toNat_ofNat_of_valid {n : Nat} (h : n.isValidChar) :
    (Char.ofNat n).toNat = n := by
  simp only [Char.ofNat]
  rw [dif_pos h]
  rfl

theorem toLower_idem (c : Char) : c.toLower.toLower = c.toLower := by
  simp only [Char.toLower]
  by_cases h : c.toNat ≥ 65 ∧ c.toNat ≤ 90
  · rw [if_pos h]
    have hv : Nat.isValidChar (c.toNat + 32) := Or.inl (by omega)
    have ht : (Char.ofNat (c.toNat + 32)).toNat = c.toNat + 32 :=
      toNat_ofNat_of_valid hv
    rw [if_neg]
    rw [ht]
    omega
  · rw [if_neg h, if_neg h]

theorem lowerStr_idem (s : String) : lowerStr (lowerStr s) = lowerStr s := by
  simp only [lowerStr, List.map_map]
  congr 1
  exact List.map_congr_left fun c _ => toLower_idem c

theorem containsSub_eq_true_iff (needle hay : List Char) :
    containsSub needle hay = true ↔ needle <:+: hay := by
  induction hay with
  | nil => simp [containsSub]
  | cons c rest ih =>
    simp [containsSub, ih, List.infix_cons_iff]

theorem strContains_of_parts (pre term suf : String) :
    strContains (pre ++ term ++ suf) term = true := by
  rw [strContains, containsSub_eq_true_iff]
  simp only [String.data_append]
  exact List.infix_append _ _ _

theorem strContains_append_left (pre : String) {text term : String}
    (h : strContains text term = true) : strContains (pre ++ text) term = true := by
  rw [strContains, containsSub_eq_true_iff] at h ⊢
  simp only [String.data_append]
  obtain ⟨s, t, ht⟩ := h
  exact ⟨pre.data ++ s, t, by rw [← ht]; simp [List.append_assoc]⟩

/-! ### Event-trace lemmas -/

theorem recEvents_append (a b : List CallEvent) :
    recEvents (a ++ b) = recEvents a ++ recEvents b := by
  simp [recEvents]

theorem recEvents_cons_search (q : String) (n : Nat) (rest : List CallEvent) :
    recEvents (.search q n :: rest) = recEvents rest := by
  simp [recEvents]

theorem recEvents_playlistFlow (env : SpotifyEnv) (mood : String) (uris : List String) :
    recEvents (playlistFlow env mood uris).2 = [] := by
  unfold playlistFlow
  cases hcu : env.getCurrentUser with
  | error e => simp [recEvents]
  | ok u =>
    cases hcp : env.createPlaylist u.id (plName mood) (plDescription mood) with
    | error e => simp [recEvents, hcp]
    | ok p =>
      cases hat : env.addTracksToPlaylist p.id uris with
      | error e => simp [recEvents, hcp, hat]
      | ok x => simp [recEvents, hcp, hat]

theorem recEvents_fetchMore (env : SpotifyEnv) (query : String) (profile : MoodProfile)
    (ids genres : List String) (tracks : List Track) :
    recEvents (fetchMore env query profile ids genres tracks).2 = [(ids, genres, 15)] := by
  unfold fetchMore
  cases hr : env.getRecommendations ids genres (moodParamsOf profile) 15 with
  | ok recs => simp [recEvents]
  | error e =>
    cases hm : env.searchTracks (query ++ " " ++ profile.mood) 15 with
    | ok more => simp [recEvents, hm]
    | error e2 => simp [recEvents, hm]

/-! ### Claim theorems -/

/-- Claim C1: when the lowercased description matches the keyword sets of
more than one category, `AnalyzeMood` equals the fold of the six rules in
fixed table order with each matching rule overwriting the whole profile,
so the result is the last matching rule's profile; in particular a text
matching both the happy and the focused keyword sets yields the complete
focused profile. -/
theorem analyzeMood_last_match_wins (s : String)
    (_hmulti : 2 ≤ (moodRules.filter fun r => containsAny (lowerStr s) r.1).length) :
    AnalyzeMood s = applyRulesInOrder (lowerStr s) ∧
    (∀ p, lastMatchingProfile (lowerStr s) = some p → AnalyzeMood s = p) ∧
    (containsAny (lowerStr s) happyKeywords = true →
      containsAny (lowerStr s) focusedKeywords = true →
      AnalyzeMood s = focusedProfile) := by
  refine ⟨rfl, ?_, ?_⟩
  · intro p hp
    simp only [AnalyzeMood, lastMatchingProfile, moodRules] at hp ⊢
    cases h1 : containsAny (lowerStr s) happyKeywords <;>
    cases h2 : containsAny (lowerStr s) sadKeywords <;>
    cases h3 : containsAny (lowerStr s) relaxedKeywords <;>
    cases h4 : containsAny (lowerStr s) energeticKeywords <;>
    cases h5 : containsAny (lowerStr s) romanticKeywords <;>
    cases h6 : containsAny (lowerStr s) focusedKeywords <;>
    simp_all
  · intro _ h6
    simp [AnalyzeMood, h6]

/-- Witness for C1: "happy and focused" matches two categories and gets the
complete focused profile. -/
theorem analyzeMood_last_match_wins_witness :
    (2 ≤ (moodRules.filter fun r => containsAny (lowerStr "happy and focused") r.1).length) ∧
    AnalyzeMood "happy and focused" = focusedProfile :=
  ⟨by decide, (analyzeMood_last_match_wins "happy and focused" (by decide)).2.2
      (by decide) (by decide)⟩

/-- Counterexample to claim C2: on "I feel happy and energetic" the
classifier does not return a profile with mood "happy" and energy 0.8
(the word "energetic" also matches the energetic category, which is
evaluated later). -/
theorem analyzeMood_happy_energetic_cex :
    ¬ ((AnalyzeMood "I feel happy and energetic").mood = "happy" ∧
       (AnalyzeMood "I feel happy and energetic").energy = 0.8) := by
  intro h
  exact absurd h.1 (by decide)

/-- Claim C2 as amended: on "I feel happy and energetic" the classifier
returns the complete energetic profile, with mood "energetic" and energy
0.9. -/
theorem analyzeMood_happy_energetic_amended :
    AnalyzeMood "I feel happy and energetic" = energeticProfile ∧
    (AnalyzeMood "I feel happy and energetic").mood = "energetic" ∧
    (AnalyzeMood "I feel happy and energetic").energy = 0.9 :=
  ⟨rfl, rfl, rfl⟩

/-- Claim C3: a description whose lowercased text matches no category's
keywords classifies to the neutral default profile: mood "neutral", all
four features 0.5, no genres, empty search terms. -/
theorem analyzeMood_neutral_default (s : String)
    (h : ∀ r ∈ moodRules, containsAny (lowerStr s) r.1 = false) :
    AnalyzeMood s =
      { mood := "neutral", energy := 0.5, danceability := 0.5, valence := 0.5,
        acousticness := 0.5, suggestedGenres := [], searchQueryTerms := "" } := by
  simp only [moodRules, List.forall_mem_cons] at h
  obtain ⟨h1, h2, h3, h4, h5, h6, -⟩ := h
  simp [AnalyzeMood, h1, h2, h3, h4, h5, h6, defaultProfile]

/-- Witness for C3: "banana bread recipe" matches nothing and yields the
neutral default. -/
theorem analyzeMood_neutral_default_witness :
    (∀ r ∈ moodRules, containsAny (lowerStr "banana bread recipe") r.1 = false) ∧
    AnalyzeMood "banana bread recipe" =
      { mood := "neutral", energy := 0.5, danceability := 0.5, valence := 0.5,
        acousticness := 0.5, suggestedGenres := [], searchQueryTerms := "" } :=
  ⟨by decide, analyzeMood_neutral_default "banana bread recipe" (by decide)⟩

/-- Claim C4: in a run whose initial search succeeds with a non-empty track
list, exactly one recommendations call is made; its seed genres are the
code's padding of the collected non-empty track IDs, which below 5 seed
tracks equals the first `5 - seedTrackCount` suggested genres (count
`min (5 - seedTrackCount, genre count)`, taken in order) and from 5 seed
tracks on is empty. -/
theorem recommend_seed_genre_padding (env : SpotifyEnv) (desc : String) (tracks : List Track)
    (hs : env.searchTracks (effectiveQuery (AnalyzeMood desc) desc) 5 = .ok tracks)
    (hne : tracks.length ≠ 0) :
    recEvents (recommendMusic env desc).events =
      [(seedTrackIDsOf tracks,
        seedGenresOf (seedTrackIDsOf tracks) (AnalyzeMood desc).suggestedGenres, 15)] ∧
    (∀ ids genres : List String, ids.length < 5 →
      seedGenresOf ids genres = genres.take (5 - ids.length) ∧
      (seedGenresOf ids genres).length = min (5 - ids.length) genres.length) ∧
    (∀ ids genres : List String, 5 ≤ ids.length → seedGenresOf ids genres = []) := by
  refine ⟨?_, ?_, ?_⟩
  · simp only [recommendMusic]
    rw [hs]
    simp only [if_neg hne]
    simp only [recEvents_cons_search, recEvents_append, recEvents_fetchMore,
      recEvents_playlistFlow, List.append_nil]
  · intro ids genres hlt
    have he : seedGenresOf ids genres = genres.take (5 - ids.length) := by
      unfold seedGenresOf
      rw [if_pos hlt]
      by_cases hg : genres.length > 0
      · rw [if_pos hg]
        by_cases hgr : genres.length > 5 - ids.length
        · rw [if_pos hgr]
        · rw [if_neg hgr]
          rw [List.take_of_length_le (by omega)]
      · rw [if_neg hg]
        have hgnil : genres = [] := by
          cases genres with
          | nil => rfl
          | cons a l => simp at hg
        subst hgnil
        simp
    refine ⟨he, ?_⟩
    rw [he, List.length_take]
  · intro ids genres hge
    unfold seedGenresOf
    rw [if_neg (by omega)]

/-- Witness for C4: a search returning one track leads to one
recommendations call seeded with that track's ID and the genre padding. -/
theorem recommend_seed_genre_padding_witness :
    envUserFail.searchTracks (effectiveQuery (AnalyzeMood "happy") "happy") 5 = .ok [track1] ∧
    recEvents (recommendMusic envUserFail "happy").events =
      [(seedTrackIDsOf [track1],
        seedGenresOf (seedTrackIDsOf [track1]) (AnalyzeMood "happy").suggestedGenres, 15)] :=
  ⟨rfl, (recommend_seed_genre_padding envUserFail "happy" [track1] rfl (by decide)).1⟩

/-- Claim C5: every Catalog Client operation other than authenticate,
invoked while the stored access token is empty, returns the
"not authenticated" error and performs zero network calls. -/
theorem client_unauthenticated_no_network (c : Client) (h : c.accessToken = "") :
    (∀ net query limit, c.SearchTracks net query limit = (.error .notAuthenticated, 0)) ∧
    (∀ net st sg mp limit,
      c.GetRecommendations net st sg mp limit = (.error .notAuthenticated, 0)) ∧
    (∀ net, c.GetCurrentUser net = (.error .notAuthenticated, 0)) ∧
    (∀ net userID name description,
      c.CreatePlaylist net userID name description = (.error .notAuthenticated, 0)) ∧
    (∀ net playlistID uris,
      c.AddTracksToPlaylist net playlistID uris = (.error .notAuthenticated, 0)) := by
  refine ⟨fun net q l => ?_, fun net st sg mp l => ?_, fun net => ?_,
    fun net u n d => ?_, fun net p u => ?_⟩ <;>
  simp [Client.SearchTracks, Client.GetRecommendations, Client.GetCurrentUser,
    Client.CreatePlaylist, Client.AddTracksToPlaylist, h]

/-- Witness for C5: a client with an empty token refuses all five
operations without a network call. -/
theorem client_unauthenticated_no_network_witness :
    clientNoTok.accessToken = "" ∧
    clientNoTok.SearchTracks none "q" 5 = (.error .notAuthenticated, 0) ∧
    clientNoTok.GetRecommendations none ["t"] [] [] 15 = (.error .notAuthenticated, 0) ∧
    clientNoTok.GetCurrentUser none = (.error .notAuthenticated, 0) ∧
    clientNoTok.CreatePlaylist none "u" "n" "d" = (.error .notAuthenticated, 0) ∧
    clientNoTok.AddTracksToPlaylist none "p" ["uri"] = (.error .notAuthenticated, 0) :=
  ⟨rfl, (client_unauthenticated_no_network clientNoTok rfl).1 none "q" 5,
    (client_unauthenticated_no_network clientNoTok rfl).2.1 none ["t"] [] [] 15,
    (client_unauthenticated_no_network clientNoTok rfl).2.2.1 none,
    (client_unauthenticated_no_network clientNoTok rfl).2.2.2.1 none "u" "n" "d",
    (client_unauthenticated_no_network clientNoTok rfl).2.2.2.2 none "p" ["uri"]⟩

/-- Claim C6: when the initial search succeeds with zero items, the
orchestrator returns the "no matching songs" message, which contains the
detected mood label, and the run's only client call is that search — no
recommendation, user-lookup, playlist-creation or track-addition call is
made. -/
theorem recommend_zero_results_message (env : SpotifyEnv) (desc : String)
    (hs : env.searchTracks (effectiveQuery (AnalyzeMood desc) desc) 5 = .ok []) :
    (recommendMusic env desc).response =
      "I understand you're feeling " ++ (AnalyzeMood desc).mood ++
        ", but I couldn't find any matching songs right now." ∧
    strContains (recommendMusic env desc).response (AnalyzeMood desc).mood = true ∧
    (recommendMusic env desc).events =
      [.search (effectiveQuery (AnalyzeMood desc) desc) 5] := by
  have hr : recommendMusic env desc =
      { response := "I understand you're feeling " ++ (AnalyzeMood desc).mood ++
          ", but I couldn't find any matching songs right now.",
        err := none,
        events := [.search (effectiveQuery (AnalyzeMood desc) desc) 5] } := by
    simp only [recommendMusic]
    rw [hs]
    simp
  refine ⟨by rw [hr], ?_, by rw [hr]⟩
  rw [hr]
  exact strContains_of_parts "I understand you're feeling " _ _

/-- Witness for C6: a search with zero items yields the "no matching
songs" message for the detected mood. -/
theorem recommend_zero_results_message_witness :
    envNoResults.searchTracks (effectiveQuery (AnalyzeMood "happy") "happy") 5 = .ok [] ∧
    (recommendMusic envNoResults "happy").response =
      "I understand you're feeling " ++ (AnalyzeMood "happy").mood ++
        ", but I couldn't find any matching songs right now." :=
  ⟨rfl, (recommend_zero_results_message envNoResults "happy" rfl).1⟩

/-- Claim C7: in a run that reaches the optional playlist sub-flow, the
returned error value is nil on every path, a failure of any of the three
steps (current-user lookup, playlist creation, track addition) leaves the
response exactly the text built before the sub-flow, and only when all
three succeed is the playlist success note appended. -/
theorem recommend_playlist_failures_swallowed (env : SpotifyEnv) (desc : String)
    (tracks : List Track)
    (hs : env.searchTracks (effectiveQuery (AnalyzeMood desc) desc) 5 = .ok tracks)
    (hne : tracks.length ≠ 0) :
    (recommendMusic env desc).err = none ∧
    (∀ e, env.getCurrentUser = .error e →
      (recommendMusic env desc).response =
        baseResponse (AnalyzeMood desc).mood (augTracks env desc tracks)) ∧
    (∀ u e, env.getCurrentUser = .ok u →
      env.createPlaylist u.id (plName (AnalyzeMood desc).mood)
          (plDescription (AnalyzeMood desc).mood) = .error e →
      (recommendMusic env desc).response =
        baseResponse (AnalyzeMood desc).mood (augTracks env desc tracks)) ∧
    (∀ u p e, env.getCurrentUser = .ok u →
      env.createPlaylist u.id (plName (AnalyzeMood desc).mood)
          (plDescription (AnalyzeMood desc).mood) = .ok p →
      env.addTracksToPlaylist p.id (urisOf env desc tracks) = .error e →
      (recommendMusic env desc).response =
        baseResponse (AnalyzeMood desc).mood (augTracks env desc tracks)) ∧
    (∀ u p, env.getCurrentUser = .ok u →
      env.createPlaylist u.id (plName (AnalyzeMood desc).mood)
          (plDescription (AnalyzeMood desc).mood) = .ok p →
      env.addTracksToPlaylist p.id (urisOf env desc tracks) = .ok () →
      (recommendMusic env desc).response =
        baseResponse (AnalyzeMood desc).mood (augTracks env desc tracks) ++
          "\n✨ I've also created a playlist for you: " ++ p.externalURL ++ "\n") := by
  refine ⟨?_, ?_, ?_, ?_, ?_⟩
  · simp only [recommendMusic]
    rw [hs]
    simp only [if_neg hne]
  · intro e hcu
    simp only [recommendMusic]
    rw [hs]
    simp only [if_neg hne]
    simp [playlistFlow, hcu, augTracks]
  · intro u e hcu hcp
    simp only [recommendMusic]
    rw [hs]
    simp only [if_neg hne]
    simp [playlistFlow, hcu, hcp, augTracks]
  · intro u p e hcu hcp hat
    simp only [urisOf, augTracks] at hat
    simp only [recommendMusic]
    rw [hs]
    simp only [if_neg hne]
    simp [playlistFlow, hcu, hcp, hat, augTracks]
  · intro u p hcu hcp hat
    simp only [urisOf, augTracks] at hat
    simp only [recommendMusic]
    rw [hs]
    simp only [if_neg hne]
    simp [playlistFlow, hcu, hcp, hat, augTracks]

/-- Witness for C7: with a failing user lookup the response is exactly the
base text and the error value is nil. -/
theorem recommend_playlist_failures_swallowed_witness :
    envUserFail.searchTracks (effectiveQuery (AnalyzeMood "happy") "happy") 5 = .ok [track1] ∧
    ([track1] : List Track).length ≠ 0 ∧
    (recommendMusic envUserFail "happy").err = none ∧
    (recommendMusic envUserFail "happy").response =
      baseResponse (AnalyzeMood "happy").mood (augTracks envUserFail "happy" [track1]) :=
  ⟨rfl, by decide,
   (recommend_playlist_failures_swallowed envUserFail "happy" [track1] rfl (by decide)).1,
   (recommend_playlist_failures_swallowed envUserFail "happy" [track1] rfl
      (by decide)).2.1 "403" rfl⟩

/-- Counterexample to claim C8: status 202 is a 2xx status, yet an
authenticated `CreatePlaylist` whose response has status 202 and a
decodable body fails with an API error. -/
theorem createPlaylist_accepts_2xx_cex :
    (200 ≤ 202 ∧ 202 < 300) ∧
    clientTok.CreatePlaylist (some { status := 202, body := some plZero }) "u" "n" "d"
      = (.error (.api 202), 1) :=
  ⟨by decide, rfl⟩

/-- Claim C8 as amended: an authenticated `CreatePlaylist` whose response
body decodes succeeds exactly when the response status is 201 or 200, and
fails exactly when it is neither. -/
theorem createPlaylist_status_amended (c : Client) (h : ¬ c.accessToken = "")
    (r : HttpResp Playlist) (p : Playlist) (hb : r.body = some p)
    (userID name description : String) :
    ((c.CreatePlaylist (some r) userID name description).1 = .ok p ↔
      (r.status = 201 ∨ r.status = 200)) ∧
    ((c.CreatePlaylist (some r) userID name description).1.isOk = false ↔
      ¬(r.status = 201 ∨ r.status = 200)) := by
  simp only [Client.CreatePlaylist, if_neg h, hb]
  by_cases hst : r.status ≠ 201 ∧ r.status ≠ 200
  · rw [if_pos hst]
    constructor
    · simp
      omega
    · simp [Except.isOk, Except.toBool]
      omega
  · rw [if_neg hst]
    constructor
    · simp
      omega
    · simp [Except.isOk, Except.toBool]
      omega

/-- Witness for the amended C8: status 201 with a decodable body yields the
playlist. -/
theorem createPlaylist_status_amended_witness :
    (¬ clientTok.accessToken = "") ∧
    (clientTok.CreatePlaylist (some { status := 201, body := some plZero }) "u" "n" "d").1
      = .ok plZero :=
  ⟨by decide,
   (createPlaylist_status_amended clientTok (by decide)
      { status := 201, body := some plZero } plZero rfl "u" "n" "d").1.mpr (Or.inl rfl)⟩

/-- Claim C9: classification is deterministic, two descriptions with the
same lowercasing classify identically, and lowercasing a description first
does not change its classification. -/
theorem analyzeMood_deterministic_case_insensitive :
    (∀ s : String, AnalyzeMood s = AnalyzeMood s) ∧
    (∀ s t : String, lowerStr s = lowerStr t → AnalyzeMood s = AnalyzeMood t) ∧
    (∀ s : String, AnalyzeMood (lowerStr s) = AnalyzeMood s) := by
  refine ⟨fun s => rfl, fun s t h => ?_, fun s => ?_⟩
  · unfold AnalyzeMood
    rw [h]
  · unfold AnalyzeMood
    rw [lowerStr_idem]

/-- Witness for C9: "HAPPY" and "Happy" have the same lowercasing and the
same classification. -/
theorem analyzeMood_case_insensitive_witness :
    lowerStr "HAPPY" = lowerStr "Happy" ∧
    AnalyzeMood "HAPPY" = AnalyzeMood "Happy" :=
  ⟨by decide,
   analyzeMood_deterministic_case_insensitive.2.1 "HAPPY" "Happy" (by decide)⟩

/-- Claim C10: the rendered response is the concatenation of one numbered
line per track (so no track is skipped), each line naming the track's
first artist — "Unknown" when the artist list is empty — and any track
with an empty artist list still appears, rendered with "Unknown". -/
theorem render_first_artist_or_unknown (tracks : List Track) (i : Nat) :
    (renderLoop i tracks).1 = concatStrings (renderedLines i tracks) ∧
    (renderedLines i tracks).length = tracks.length ∧
    (∀ t ∈ tracks, t.artists = [] →
      strContains (renderLoop i tracks).1
        (FormatTrackRecommendation t.name "Unknown" t.externalURL) = true) := by
  induction tracks generalizing i with
  | nil => simp [renderLoop, renderedLines, concatStrings]
  | cons t rest ih =>
    refine ⟨?_, ?_, ?_⟩
    · simp only [renderLoop, renderedLines, concatStrings]
      rw [(ih (i + 1)).1]
    · simp [renderedLines, (ih (i + 1)).2.1]
    · intro t' ht' hart
      rcases List.mem_cons.mp ht' with rfl | hmem
      · simp only [renderLoop, hart]
        have hp := strContains_of_parts (toString (i + 1) ++ ". ")
          (FormatTrackRecommendation t'.name "Unknown" t'.externalURL)
          ("\n" ++ (renderLoop (i + 1) rest).1)
        rw [← String.append_assoc
          ((toString (i + 1) ++ ". ") ++
            FormatTrackRecommendation t'.name "Unknown" t'.externalURL)
          "\n" (renderLoop (i + 1) rest).1] at hp
        simpa using hp
      · have hc := (ih (i + 1)).2.2 t' hmem hart
        simp only [renderLoop]
        exact strContains_append_left _ hc

/-- Witness for C10: a track with no artists is still rendered, with
artist name "Unknown". -/
theorem render_first_artist_or_unknown_witness :
    trackNoArtist ∈ ([trackNoArtist] : List Track) ∧
    trackNoArtist.artists = [] ∧
    strContains (renderLoop 0 [trackNoArtist]).1
      (FormatTrackRecommendation trackNoArtist.name "Unknown" trackNoArtist.externalURL)
      = true :=
  ⟨by simp, rfl,
   (render_first_artist_or_unknown [trackNoArtist] 0).2.2 trackNoArtist (by simp) rfl⟩

end MoodAnalyst
